import Mathlib

/-!
Verification of the OpenHands GitHub webhook ingestion and PR-review
orchestration pipeline, shallowly embedded from
`openhands/server/routes/webhooks.py` and
`openhands/integrations/github/pr_reviewer.py`.

Bytes are modelled as natural numbers below 256, byte strings as `List Nat`.
External collaborators (the JSON parser, the GitHub REST gateway and the
conversation manager) are modelled as oracle parameters; everything the
Python code itself computes is translated directly.
-/

namespace OpenhandsWebhook

/-! ### SHA-256 and HMAC-SHA256, as used by `hashlib` / `hmac` in
`verify_signature` (webhooks.py lines 42-64). -/

/-- Truncate to a 32-bit word. -/
def w32 (n : Nat) : Nat := n % 4294967296

/-- Rotate the 32-bit word `x` rightwards by `n` bit positions. -/
def rotr32 (n x : Nat) : Nat := w32 ((x >>> n) ||| (x <<< (32 - n)))

/-- Bitwise complement of a 32-bit word. -/
def not32 (x : Nat) : Nat := x ^^^ 4294967295

def chV (e f g : Nat) : Nat := (e &&& f) ^^^ (not32 e &&& g)

def majV (a b c : Nat) : Nat := (a &&& b) ^^^ (a &&& c) ^^^ (b &&& c)

def bsig0 (x : Nat) : Nat := rotr32 2 x ^^^ rotr32 13 x ^^^ rotr32 22 x

def bsig1 (x : Nat) : Nat := rotr32 6 x ^^^ rotr32 11 x ^^^ rotr32 25 x

def ssig0 (x : Nat) : Nat := rotr32 7 x ^^^ rotr32 18 x ^^^ (x >>> 3)

def ssig1 (x : Nat) : Nat := rotr32 17 x ^^^ rotr32 19 x ^^^ (x >>> 10)

/-- The 64 SHA-256 round constants, written in decimal. -/
def shaK : List Nat :=
  [1116352408, 1899447441, 3049323471, 3921009573, 961987163, 1508970993,
   2453635748, 2870763221, 3624381080, 310598401, 607225278, 1426881987,
   1925078388, 2162078206, 2614888103, 3248222580, 3835390401, 4022224774,
   264347078, 604807628, 770255983, 1249150122, 1555081692, 1996064986,
   2554220882, 2821834349, 2952996808, 3210313671, 3336571891, 3584528711,
   113926993, 338241895, 666307205, 773529912, 1294757372, 1396182291,
   1695183700, 1986661051, 2177026350, 2456956037, 2730485921, 2820302411,
   3259730800, 3345764771, 3516065817, 3600352804, 4094571909, 275423344,
   430227734, 506948616, 659060556, 883997877, 958139571, 1322822218,
   1537002063, 1747873779, 1955562222, 2024104815, 2227730452, 2361852424,
   2428436474, 2756734187, 3204031479, 3329325298]

/-- The eight 32-bit words of the SHA-256 working state. -/
structure H8 where
  a : Nat
  b : Nat
  c : Nat
  d : Nat
  e : Nat
  f : Nat
  g : Nat
  h : Nat
deriving DecidableEq

/-- One SHA-256 compression round; `kw` is the pair of round constant and
message-schedule word. -/
def shaRound (st : H8) (kw : Nat × Nat) : H8 :=
  let t1 := w32 (st.h + bsig1 st.e + chV st.e st.f st.g + kw.1 + kw.2)
  let t2 := w32 (bsig0 st.a + majV st.a st.b st.c)
  ⟨w32 (t1 + t2), st.a, st.b, st.c, w32 (st.d + t1), st.e, st.f, st.g⟩

/-- Extend the 16-word message schedule by the given number of words. -/
def schedExtend : List Nat → Nat → List Nat
  | ws, 0 => ws
  | ws, n + 1 =>
    let t := ws.length
    let nw := w32 (ssig1 (ws.getD (t - 2) 0) + ws.getD (t - 7) 0 +
      ssig0 (ws.getD (t - 15) 0) + ws.getD (t - 16) 0)
    schedExtend (ws ++ [nw]) n

/-- Big-endian 32-bit words from a list of bytes. -/
def bytesToWords : List Nat → List Nat
  | a :: b :: c :: d :: rest =>
    (((a * 256 + b) * 256 + c) * 256 + d) :: bytesToWords rest
  | _ => []

/-- Big-endian bytes of a 32-bit word. -/
def wordToBytes (w : Nat) : List Nat :=
  [(w >>> 24) % 256, (w >>> 16) % 256, (w >>> 8) % 256, w % 256]

/-- Big-endian 64-bit length field used by SHA-256 padding. -/
def be64 (n : Nat) : List Nat :=
  [(n >>> 56) % 256, (n >>> 48) % 256, (n >>> 40) % 256, (n >>> 32) % 256,
   (n >>> 24) % 256, (n >>> 16) % 256, (n >>> 8) % 256, n % 256]

/-- Process one 64-byte block. -/
def compressBlock (st : H8) (block : List Nat) : H8 :=
  let ws := schedExtend (bytesToWords block) 48
  let r := (shaK.zip ws).foldl shaRound st
  ⟨w32 (st.a + r.a), w32 (st.b + r.b), w32 (st.c + r.c), w32 (st.d + r.d),
   w32 (st.e + r.e), w32 (st.f + r.f), w32 (st.g + r.g), w32 (st.h + r.h)⟩

/-- SHA-256 message padding. -/
def shaPad (msg : List Nat) : List Nat :=
  let l := msg.length
  let k := (119 - l % 64) % 64
  msg ++ [128] ++ List.replicate k 0 ++ be64 (8 * l)

/-- Split a byte list into 64-byte chunks. -/
def chunk64 (l : List Nat) : List (List Nat) :=
  if l.isEmpty then [] else l.take 64 :: chunk64 (l.drop 64)
termination_by l.length
decreasing_by
  simp only [List.length_drop]
  rcases l with _ | ⟨x, xs⟩
  · simp_all
  · simp; omega

/-- SHA-256 of a byte list, as a 32-byte list. -/
def sha256 (msg : List Nat) : List Nat :=
  let final := (chunk64 (shaPad msg)).foldl compressBlock
    ⟨1779033703, 3144134277, 1013904242, 2773480762,
     1359893119, 2600822924, 528734635, 1541459225⟩
  wordToBytes final.a ++ wordToBytes final.b ++ wordToBytes final.c ++
    wordToBytes final.d ++ wordToBytes final.e ++ wordToBytes final.f ++
    wordToBytes final.g ++ wordToBytes final.h

/-- Lower-case hex digit. -/
def hexChar (n : Nat) : Char :=
  if n < 10 then Char.ofNat (48 + n) else Char.ofNat (87 + n)

def byteToHex (b : Nat) : List Char := [hexChar (b / 16), hexChar (b % 16)]

/-- Lower-case hex string of a byte list (Python's `hexdigest`). -/
def bytesToHex (bs : List Nat) : String := String.mk ((bs.map byteToHex).flatten)

/-- HMAC-SHA256 (RFC 2104) with a 64-byte block size, as `hmac.new(secret,
msg, hashlib.sha256)`. -/
def hmacSha256 (key msg : List Nat) : List Nat :=
  let k0 := if key.length > 64 then sha256 key else key
  let kp := k0 ++ List.replicate (64 - k0.length) 0
  let ip := kp.map (fun b => b ^^^ 54)
  let op := kp.map (fun b => b ^^^ 92)
  sha256 (op ++ sha256 (ip ++ msg))

/-- Hex digest of the HMAC, i.e. `mac.hexdigest()`. -/
def hmacSha256Hex (key msg : List Nat) : String := bytesToHex (hmacSha256 key msg)

/-- Python's `hmac.compare_digest` on two ASCII strings: a constant-time
comparison whose result is equality. -/
def compare_digest (a b : String) : Bool := a == b

/-- `verify_signature` from webhooks.py lines 42-64: check the `sha256=`
header format, then compare the rest of the header with the hex digest of
the payload's HMAC keyed by the secret.  The secret is modelled directly as
its UTF-8 bytes (the source calls `secret.encode()`). -/
def verify_signature (payload : List Nat) (signature_header : String)
    (secret : List Nat) : Bool :=
  if ¬ signature_header.startsWith "sha256=" then false
  else
    let signature := signature_header.drop 7
    let expected_signature := hmacSha256Hex secret payload
    compare_digest signature expected_signature

/-! ### Data model of the webhook payload and the GitHub API responses.

Python dictionaries read with `.get` are modelled as structures of
optional fields: `none` stands for an absent key (or a JSON `null`), and
each access site applies the same default the source applies. -/

/-- One entry of the `pull_request.files` listing (a `ChangedFile`). -/
structure PrFile where
  filename : Option String := none
  status : Option String := none
  additions : Option Nat := none
  deletions : Option Nat := none
  changes : Option Nat := none
  patch : Option String := none
  blob_url : Option String := none
deriving DecidableEq

/-- The `pull_request` object of a webhook payload. -/
structure PrData where
  number : Option Nat := none
  title : Option String := none
deriving DecidableEq

/-- The `repository` object of a webhook payload. -/
structure RepoData where
  full_name : Option String := none
deriving DecidableEq

/-- The parsed JSON body of a webhook delivery, restricted to the keys the
handler reads. -/
structure Payload where
  action : Option String := none
  pull_request : Option PrData := none
  repository : Option RepoData := none
deriving DecidableEq

/-- What `_fetch_pr_details` returns: the six fields it extracts, each
already defaulted to the empty string. -/
structure PrDetails where
  title : String := ""
  body : String := ""
  head_branch : String := ""
  base_branch : String := ""
  user : String := ""
  html_url : String := ""
deriving DecidableEq

/-- A `GET /repos/{repo}/contents/{path}` response body. -/
structure FileData where
  type : Option String := none
  content : Option String := none
deriving DecidableEq

/-- The dictionary `review_pr` returns on success. -/
structure ReviewResult where
  conversation_id : String
  pr_number : Option Nat
  repo_name : Option String
deriving DecidableEq

deriving instance DecidableEq for Except

/-- Observable trace of one `review_pr` run: whether conversation creation
was attempted, the messages sent to the conversation, the indices of the
per-file content fetches, whether `_create_fix_pr` was ever invoked, and
the returned dictionary or the propagated exception. -/
structure ReviewTrace where
  createAttempted : Bool := false
  msgs : List String := []
  contentCalls : List Nat := []
  fixAttempted : Bool := false
  result : Except String ReviewResult
deriving DecidableEq

/-- The outcomes of the external calls a single review cycle can make:
the two PR fetches, the conversation creation, the generated conversation
id (`uuid.uuid4().hex`), and the per-file content fetches indexed by file
position. -/
structure Oracle where
  fetchPrDetails : Except String PrDetails
  fetchPrFiles : Except String (List PrFile)
  createConversation : Except String Unit
  newConversationId : String
  fetchFileContent : Nat → Except String FileData

/-- The configuration `WebhookConfig` loaded at startup
(webhooks.py lines 17-39). -/
structure Config where
  secret : Option (List Nat) := none
  allowed_repositories : List String := []
  auto_fix : Bool := false

/-- Body of a 200 JSON response.  The outer `Option` on the extra fields
records whether the key is present at all; the inner `Option` is a JSON
`null`. -/
structure RespBody where
  message : String
  pr_number : Option (Option Nat) := none
  repo : Option (Option String) := none
  conversation_id : Option (Option String) := none
deriving DecidableEq

/-- Result of `handle_pull_request_event`: the response body, whether the
orchestrator (`PRReviewer.review_pr`) was invoked, and its trace. -/
structure HandleResult where
  body : RespBody
  invoked : Bool := false
  trace : Option ReviewTrace := none
deriving DecidableEq

/-- The full HTTP outcome of the endpoint: status code, the `detail` field
of a raised `HTTPException`, the JSON body of a 200 response, and the
orchestration observables. -/
structure WebhookOutcome where
  status : Nat
  detail : Option String := none
  body : Option RespBody := none
  invoked : Bool := false
  trace : Option ReviewTrace := none
deriving DecidableEq

/-- Python `f`-string rendering of an optional string (`None` prints as
`"None"`). -/
def pyOpt : Option String → String
  | none => "None"
  | some s => s

/-- Membership of the (possibly missing) repository name in the allow-list,
i.e. `repo_name in webhook_config.allowed_repositories`. -/
def memAllowed (r : Option String) (l : List String) : Bool :=
  match r with
  | none => false
  | some s => l.contains s

/-! ### `_add_pr_diff_to_conversation` (pr_reviewer.py lines 208-272). -/

/-- The fenced-diff message built at line 260:
`File: {filename} ({status})` followed by a ```` ```diff ```` block. -/
def fencedDiffMsg (f : PrFile) : String :=
  "File: " ++ f.filename.getD "" ++ " (" ++ f.status.getD "" ++
    ")\n\n```diff\n" ++ f.patch.getD "" ++ "\n```"

/-- The new-file message built at line 240:
`File: {filename} (New file)` followed by a fenced block of the content. -/
def newFileMsg (filename content : String) : String :=
  "File: " ++ filename ++ " (New file)\n\n```\n" ++ content ++ "\n```"

/-- One iteration of the loop body (lines 223-272) for a single file.
`r` is the outcome of the content fetch, consulted only on the fetch
branch.  Returns the messages sent for this file and whether a
content-fetch was attempted.  A fetch failure is the `try`/`except` path:
logged and skipped. -/
def processFile (r : Except String FileData) (f : PrFile) : List String × Bool :=
  let filename := f.filename.getD ""
  let status := f.status.getD ""
  let patch := f.patch.getD ""
  if patch.isEmpty ∧ status ≠ "removed" then
    match r with
    | .error _ => ([], true)
    | .ok fd =>
      if fd.type = some "file" then
        ([newFileMsg filename (fd.content.getD "")], true)
      else ([], true)
  else if patch.isEmpty = false then
    ([fencedDiffMsg f], false)
  else ([], false)

/-- The loop of `_add_pr_diff_to_conversation`, threading the file index
used to address the content-fetch oracle. -/
def addPrDiffAux (fetch : Nat → Except String FileData) :
    Nat → List PrFile → List String × List Nat
  | _, [] => ([], [])
  | i, f :: rest =>
    let pr := processFile (fetch i) f
    let tl := addPrDiffAux fetch (i + 1) rest
    (pr.1 ++ tl.1, (if pr.2 then [i] else []) ++ tl.2)

/-- `_add_pr_diff_to_conversation`: the messages sent to the conversation,
in order, and the indices of the files whose content was fetched. -/
def addPrDiff (fetch : Nat → Except String FileData) (files : List PrFile) :
    List String × List Nat :=
  addPrDiffAux fetch 0 files

/-- List of elements paired with their position, starting at `i`. -/
def withIdx {α : Type} : Nat → List α → List (Nat × α)
  | _, [] => []
  | i, a :: l => (i, a) :: withIdx (i + 1) l

/-- The fixed review-request text sent by
`_add_review_request_to_conversation` (lines 281-292). -/
def reviewRequestText : String :=
  "\nNow that you\x27ve seen the PR changes, please provide a comprehensive review of the code. Include:\n\n1. A summary of the changes\n2. Code quality assessment\n3. Potential bugs or issues\n4. Performance considerations\n5. Security concerns\n6. Suggested improvements\n\nIf there are issues that need fixing, please describe them in detail.\n"

/-! ### `review_pr` (pr_reviewer.py lines 365-407). -/

/-- `PRReviewer.review_pr`: fetch details, fetch files, create the
conversation, inject the diff, send the review request, return the result
dictionary.  `auto_fix` is stored by the constructor but never read by
`review_pr`; in particular `_create_fix_pr` is never invoked. -/
def review_pr (o : Oracle) (repo_name : Option String) (pr_number : Option Nat)
    (auto_fix : Bool) : ReviewTrace :=
  match o.fetchPrDetails with
  | .error e => { result := .error e }
  | .ok _ =>
    match o.fetchPrFiles with
    | .error e => { result := .error e }
    | .ok files =>
      match o.createConversation with
      | .error e => { createAttempted := true, result := .error e }
      | .ok _ =>
        let cid := o.newConversationId
        let inj := addPrDiff o.fetchFileContent files
        { createAttempted := true,
          msgs := inj.1 ++ [reviewRequestText],
          contentCalls := inj.2,
          fixAttempted := false,
          result := .ok { conversation_id := cid, pr_number := pr_number,
                          repo_name := repo_name } }

/-- `_create_fix_pr` (lines 336-363): a placeholder that logs and always
returns `None`. -/
def create_fix_pr : Option String := none

/-! ### `handle_pull_request_event` (webhooks.py lines 122-182). -/

/-- `handle_pull_request_event`: filter by action, filter by allow-list,
then run the reviewer inside a `try` that converts any exception into a
200-body error message. -/
def handle_pull_request_event (cfg : Config) (o : Oracle) (payload : Payload) :
    HandleResult :=
  let action := payload.action
  let pr_data := payload.pull_request.getD {}
  let repository := payload.repository.getD {}
  if ¬ (action = some "opened" ∨ action = some "synchronize") then
    { body := { message := "PR action " ++ pyOpt action ++ " not handled" } }
  else
    let repo_name := repository.full_name
    if ¬ cfg.allowed_repositories.isEmpty ∧
        memAllowed repo_name cfg.allowed_repositories = false then
      { body := { message := "Repository " ++ pyOpt repo_name ++
          " not configured for PR reviews" } }
    else
      let pr_number := pr_data.number
      let tr := review_pr o repo_name pr_number cfg.auto_fix
      match tr.result with
      | .ok res =>
        { body := { message := "PR review initiated",
                    pr_number := some pr_number,
                    repo := some repo_name,
                    conversation_id := some (some res.conversation_id) },
          invoked := true, trace := some tr }
      | .error e =>
        { body := { message := "Error processing PR review: " ++ e,
                    pr_number := some pr_number,
                    repo := some repo_name },
          invoked := true, trace := some tr }

/-! ### `github_webhook` (webhooks.py lines 67-119). -/

/-- The post-verification part of `github_webhook`: parse the body with the
JSON parser oracle, then dispatch on the event type. -/
def github_webhook_routed (cfg : Config) (parse : List Nat → Option Payload)
    (o : Oracle) (event : String) (payload_bytes : List Nat) : WebhookOutcome :=
  match parse payload_bytes with
  | none => { status := 400, detail := some "Invalid JSON payload" }
  | some payload =>
    if event = "pull_request" then
      let h := handle_pull_request_event cfg o payload
      { status := 200, body := some h.body, invoked := h.invoked, trace := h.trace }
    else if event = "ping" then
      { status := 200, body := some { message := "Webhook received successfully" } }
    else
      { status := 200,
        body := some { message := "Event type " ++ event ++ " not handled" } }

/-- `github_webhook`: signatures are verified only when the configured
secret *and* the received header are both truthy (line 92:
`if webhook_config.secret and x_hub_signature_256:`); on verification
failure an `HTTPException(401, 'Invalid signature')` is raised before the
body is parsed. -/
def github_webhook (cfg : Config) (parse : List Nat → Option Payload)
    (o : Oracle) (event : String) (sig : Option String)
    (payload_bytes : List Nat) : WebhookOutcome :=
  match cfg.secret, sig with
  | some s, some h =>
    if !s.isEmpty && !h.isEmpty then
      if verify_signature payload_bytes h s then
        github_webhook_routed cfg parse o event payload_bytes
      else
        { status := 401, detail := some "Invalid signature" }
    else github_webhook_routed cfg parse o event payload_bytes
  | _, _ => github_webhook_routed cfg parse o event payload_bytes

/-- The signature gate as a single condition: `true` when the request is
not rejected with a 401. -/
def sigOk (cfg : Config) (sig : Option String) (payload_bytes : List Nat) : Bool :=
  match cfg.secret, sig with
  | some s, some h =>
    if !s.isEmpty && !h.isEmpty then verify_signature payload_bytes h s
    else true
  | _, _ => true

/-! ### Concrete inputs used to exercise the definitions. -/

/-- A successful content-fetch response for a regular file. -/
def fdFile : FileData := { type := some "file", content := some "QmFzZTY0" }

/-- A changed file whose `patch` is present. -/
def fPatched : PrFile :=
  { filename := some "a.py", status := some "modified", patch := some "@@ -1 +1 @@" }

/-- A changed file with no patch, status `added`. -/
def fNoPatchA : PrFile := { filename := some "b.py", status := some "added" }

/-- A second changed file with no patch, status `added`. -/
def fNoPatchB : PrFile := { filename := some "d.py", status := some "added" }

/-- A removed file with no patch. -/
def fRemoved : PrFile := { filename := some "c.py", status := some "removed" }

/-- A two-file list in which both files need a content fetch. -/
def filesW : List PrFile := [fNoPatchA, fNoPatchB]

/-- A content-fetch oracle that always succeeds. -/
def fetchOkW : Nat → Except String FileData := fun _ => .ok fdFile

/-- A content-fetch oracle failing exactly on file index 0. -/
def fetchFail0W : Nat → Except String FileData :=
  fun j => if j = 0 then .error "boom" else .ok fdFile

/-- A configuration with a non-empty secret (the bytes of `"sec"`). -/
def cfgSecretW : Config := { secret := some [115, 101, 99] }

/-- The all-default configuration: no secret, empty allow-list. -/
def cfgEmptyW : Config := {}

/-- A configuration whose allow-list names only `x/y`. -/
def cfgAllowOtherW : Config := { allowed_repositories := ["x/y"] }

/-- A parser oracle returning the empty payload for every body. -/
def parseNoneW : List Nat → Option Payload := fun _ => some {}

/-- An eligible `opened` pull-request payload for repository `o/r`. -/
def payloadOpenedW : Payload :=
  { action := some "opened",
    pull_request := some { number := some 1, title := some "t" },
    repository := some { full_name := some "o/r" } }

/-- A `closed`-action pull-request payload. -/
def payloadClosedW : Payload := { action := some "closed" }

/-- Parser oracle returning `payloadOpenedW`. -/
def parseOpenedW : List Nat → Option Payload := fun _ => some payloadOpenedW

/-- Parser oracle returning `payloadClosedW`. -/
def parseClosedW : List Nat → Option Payload := fun _ => some payloadClosedW

/-- An oracle whose PR-details fetch fails. -/
def oracleFailDetailsW : Oracle :=
  { fetchPrDetails := .error "nope", fetchPrFiles := .ok [],
    createConversation := .ok (), newConversationId := "cid",
    fetchFileContent := fun _ => .ok fdFile }

/-- An oracle for which every external call succeeds. -/
def oracleOkW : Oracle :=
  { fetchPrDetails := .ok {}, fetchPrFiles := .ok [],
    createConversation := .ok (), newConversationId := "cid",
    fetchFileContent := fun _ => .ok fdFile }

/-! ### Helper lemmas. -/

/-- Mapping congruent functions over a list gives equal results. -/
theorem mapCongrOn {α β : Type} (l : List α) (f g : α → β)
    (h : ∀ a ∈ l, f a = g a) : l.map f = l.map g := by
  induction l with
  | nil => rfl
  | cons a t ih =>
    simp only [List.map_cons]
    rw [h a (List.mem_cons_self a t), ih (fun b hb => h b (List.mem_cons_of_mem a hb))]

/-- The diff-injection loop decomposes into a flattened list of per-file
blocks, both for the messages and for the content-fetch calls. -/
theorem addPrDiffAux_eq (fetch : Nat → Except String FileData) (i : Nat)
    (files : List PrFile) :
    addPrDiffAux fetch i files =
      (((withIdx i files).map (fun p => (processFile (fetch p.1) p.2).1)).flatten,
       ((withIdx i files).map
         (fun p => if (processFile (fetch p.1) p.2).2 then [p.1] else [])).flatten) := by
  induction files generalizing i with
  | nil => rfl
  | cons f rest ih => simp [addPrDiffAux, withIdx, ih]

/-- `github_webhook` factors through the signature gate `sigOk`. -/
theorem github_webhook_gate (cfg : Config) (parse : List Nat → Option Payload)
    (o : Oracle) (event : String) (sig : Option String)
    (payload_bytes : List Nat) :
    github_webhook cfg parse o event sig payload_bytes =
      if sigOk cfg sig payload_bytes then
        github_webhook_routed cfg parse o event payload_bytes
      else { status := 401, detail := some "Invalid signature" } := by
  unfold github_webhook sigOk
  rcases cfg.secret with _ | s <;> rcases sig with _ | h <;> simp
  by_cases hs : s = [] <;> by_cases hh : h.isEmpty = true <;>
    by_cases hv : verify_signature payload_bytes h s = true <;>
    simp [hs, hh, hv]

/-! ### Claims. -/

/-- Claim C2: `verify_signature` returns false whenever the header does not
begin with `sha256=`; otherwise it returns true exactly when the hex digest
after the prefix equals the hex-encoded HMAC-SHA256 of the payload keyed by
the secret. -/
theorem c2_verify_signature (payload : List Nat) (header : String)
    (secret : List Nat) :
    verify_signature payload header secret =
      (header.startsWith "sha256=" &&
        (header.drop 7 == hmacSha256Hex secret payload))
    ∧ (verify_signature payload header secret = true ↔
        header.startsWith "sha256=" = true ∧
          header.drop 7 = hmacSha256Hex secret payload) := by
  constructor
  · unfold verify_signature compare_digest
    by_cases h : header.startsWith "sha256=" <;> simp [h]
  · unfold verify_signature compare_digest
    by_cases h : header.startsWith "sha256=" <;> simp [h]

/-- Claim C3: `review_pr` ignores the `auto_fix` flag entirely: with the
flag set it behaves identically to the flag being clear, `_create_fix_pr`
is never invoked, and the outcome carries no fix-PR report of any kind
(the code bug: the fix step is never attempted, nothing is logged and
nothing is reported, contradicting `review_pr`'s own step 5 docstring). -/
theorem c3_auto_fix_ignored (o : Oracle) (r : Option String) (n : Option Nat) :
    review_pr o r n true = review_pr o r n false
    ∧ (review_pr o r n true).fixAttempted = false
    ∧ create_fix_pr = none := by
  refine ⟨rfl, ?_, rfl⟩
  unfold review_pr
  rcases o.fetchPrDetails with e | d <;> simp
  rcases o.fetchPrFiles with e | files <;> simp
  rcases o.createConversation with e | u <;> simp

/-- Claim C9: diff injection is order-preserving: the messages produced by
`_add_pr_diff_to_conversation` are exactly the per-file message blocks
concatenated in the gateway's file-list order. -/
theorem c9_order_preserved (fetch : Nat → Except String FileData)
    (files : List PrFile) :
    (addPrDiff fetch files).1 =
      ((withIdx 0 files).map (fun p => (processFile (fetch p.1) p.2).1)).flatten := by
  unfold addPrDiff
  rw [addPrDiffAux_eq]

/-- Claim C7: a failing content fetch at one index is isolated: under two
fetch oracles that agree everywhere except index `i` (where the second
fails), every other file's message block is unchanged, and the run with the
failing oracle still produces the blocks of all files, in order. -/
theorem c7_single_failure_isolated (fetch fetchB : Nat → Except String FileData)
    (files : List PrFile) (i : Nat) (e : String)
    (hag : ∀ j, j ≠ i → fetch j = fetchB j)
    (hfail : fetchB i = .error e) :
    ((withIdx 0 files).filter (fun p => p.1 != i)).map
        (fun p => (processFile (fetch p.1) p.2).1) =
      ((withIdx 0 files).filter (fun p => p.1 != i)).map
        (fun p => (processFile (fetchB p.1) p.2).1)
    ∧ (addPrDiff fetchB files).1 =
      ((withIdx 0 files).map (fun p => (processFile (fetchB p.1) p.2).1)).flatten := by
  constructor
  · apply mapCongrOn
    intro p hp
    have hmem := List.mem_filter.mp hp
    have hne : p.1 ≠ i := by simpa using hmem.2
    rw [hag p.1 hne]
  · unfold addPrDiff
    rw [addPrDiffAux_eq]

/-- Witness for C7 at a concrete two-file list with the fetch failing on
file 0. -/
theorem c7_witness :
    (((withIdx 0 filesW).filter (fun p => p.1 != 0)).map
        (fun p => (processFile (fetchOkW p.1) p.2).1) =
      ((withIdx 0 filesW).filter (fun p => p.1 != 0)).map
        (fun p => (processFile (fetchFail0W p.1) p.2).1))
    ∧ (addPrDiff fetchFail0W filesW).1 =
      ((withIdx 0 filesW).map
        (fun p => (processFile (fetchFail0W p.1) p.2).1)).flatten :=
  c7_single_failure_isolated fetchOkW fetchFail0W filesW 0 "boom"
    (fun j hj => by simp [fetchOkW, fetchFail0W, hj]) rfl

/-- Claim C8: a file whose `patch` is present never triggers a content
fetch and contributes exactly the fenced-diff message; a file with no
patch and status `removed` triggers neither a fetch nor a message; and the
content-fetch calls of a whole run are exactly the per-file fetch
decisions. -/
theorem c8_patch_and_removed (fetch : Nat → Except String FileData)
    (files : List PrFile) (r : Except String FileData) (f : PrFile) :
    (addPrDiff fetch files).2 =
      ((withIdx 0 files).map
        (fun p => if (processFile (fetch p.1) p.2).2 then [p.1] else [])).flatten
    ∧ ((f.patch.getD "").isEmpty = false →
        processFile r f = ([fencedDiffMsg f], false))
    ∧ ((f.patch.getD "").isEmpty = true → f.status.getD "" = "removed" →
        processFile r f = ([], false)) := by
  refine ⟨?_, ?_, ?_⟩
  · unfold addPrDiff
    rw [addPrDiffAux_eq]
  · intro hp
    unfold processFile
    simp [hp]
  · intro hp hs
    unfold processFile
    simp [hp, hs]

/-- Witness for C8 at a patched file and at a removed file. -/
theorem c8_witness :
    processFile (.ok fdFile) fPatched = ([fencedDiffMsg fPatched], false)
    ∧ processFile (.ok fdFile) fRemoved = ([], false) :=
  ⟨(c8_patch_and_removed fetchOkW [] (.ok fdFile) fPatched).2.1 (by decide),
   (c8_patch_and_removed fetchOkW [] (.ok fdFile) fRemoved).2.2 (by decide) (by decide)⟩

/-- Claim C1 fails on the code: with a secret configured and the signature
header absent (or empty), `github_webhook` skips verification and
continues processing instead of responding 401 — here a `ping` with no
header is answered 200. -/
theorem c1_counterexample :
    (github_webhook cfgSecretW parseNoneW oracleOkW "ping" none []).status = 200
    ∧ (github_webhook cfgSecretW parseNoneW oracleOkW "ping" none []).body =
        some { message := "Webhook received successfully" }
    ∧ (github_webhook cfgSecretW parseNoneW oracleOkW "ping" (some "") []).status = 200 := by
  refine ⟨rfl, rfl, rfl⟩

/-- Claim C1 as amended: when a non-empty secret is configured and a
non-empty signature header is present but fails verification, the endpoint
responds 401 with detail `Invalid signature` and performs no further
processing; when the header is missing, verification is skipped and
processing continues. -/
theorem c1_amended_reject (cfg : Config) (parse : List Nat → Option Payload)
    (o : Oracle) (event : String) (s : List Nat) (h : String)
    (payload_bytes : List Nat)
    (hs : cfg.secret = some s) (hsne : s.isEmpty = false)
    (hhne : h.isEmpty = false)
    (hv : verify_signature payload_bytes h s = false) :
    github_webhook cfg parse o event (some h) payload_bytes =
      { status := 401, detail := some "Invalid signature" }
    ∧ github_webhook cfg parse o event none payload_bytes =
      github_webhook_routed cfg parse o event payload_bytes := by
  constructor
  · unfold github_webhook
    rw [hs]
    simp [hsne, hhne, hv]
  · unfold github_webhook
    rw [hs]

/-- Witness for the amended C1 at a concrete secret and a malformed
header. -/
theorem c1_witness :
    verify_signature [] "x" [115, 101, 99] = false
    ∧ (github_webhook cfgSecretW parseNoneW oracleOkW "ping" (some "x") [] =
        { status := 401, detail := some "Invalid signature" }
      ∧ github_webhook cfgSecretW parseNoneW oracleOkW "ping" none [] =
        github_webhook_routed cfgSecretW parseNoneW oracleOkW "ping" []) :=
  ⟨by decide,
   c1_amended_reject cfgSecretW parseNoneW oracleOkW "ping" [115, 101, 99] "x" []
     rfl rfl rfl (by decide)⟩

/-- Claim C4: if fetching the PR metadata or the changed-file list fails,
the cycle aborts before any conversation is created (no creation attempt,
no messages, no content fetches) and the failure is reported inside an
HTTP 200 response body as an error message, never as a non-200 status. -/
theorem c4_fetch_failure (cfg : Config) (o : Oracle) (payload : Payload)
    (e : String) (parse : List Nat → Option Payload) (sig : Option String)
    (payload_bytes : List Nat)
    (ha : payload.action = some "opened" ∨ payload.action = some "synchronize")
    (hr : ¬ (¬ cfg.allowed_repositories.isEmpty ∧
        memAllowed (payload.repository.getD {}).full_name
          cfg.allowed_repositories = false))
    (hf : o.fetchPrDetails = .error e ∨
        (∃ d, o.fetchPrDetails = .ok d ∧ o.fetchPrFiles = .error e))
    (hsig : sigOk cfg sig payload_bytes = true)
    (hparse : parse payload_bytes = some payload) :
    handle_pull_request_event cfg o payload =
      { body := { message := "Error processing PR review: " ++ e,
                  pr_number := some (payload.pull_request.getD {}).number,
                  repo := some (payload.repository.getD {}).full_name },
        invoked := true,
        trace := some { result := .error e } }
    ∧ github_webhook cfg parse o "pull_request" sig payload_bytes =
      { status := 200,
        body := some { message := "Error processing PR review: " ++ e,
                       pr_number := some (payload.pull_request.getD {}).number,
                       repo := some (payload.repository.getD {}).full_name },
        invoked := true,
        trace := some { result := .error e } } := by
  have htr : review_pr o (payload.repository.getD {}).full_name
      (payload.pull_request.getD {}).number cfg.auto_fix =
      { result := .error e } := by
    rcases hf with h1 | ⟨d, h2, h3⟩
    · unfold review_pr
      rw [h1]
    · unfold review_pr
      rw [h2, h3]
  have hc1 : ¬ ¬ (payload.action = some "opened" ∨
      payload.action = some "synchronize") := by
    rcases ha with h | h <;> simp [h]
  have hh : handle_pull_request_event cfg o payload =
      { body := { message := "Error processing PR review: " ++ e,
                  pr_number := some (payload.pull_request.getD {}).number,
                  repo := some (payload.repository.getD {}).full_name },
        invoked := true,
        trace := some { result := .error e } } := by
    simp only [handle_pull_request_event]
    rw [if_neg hc1, if_neg hr, htr]
  refine ⟨hh, ?_⟩
  rw [github_webhook_gate, hsig]
  unfold github_webhook_routed
  rw [hparse]
  simp [hh]

/-- Witness for C4: a details-fetch failure surfaces as a 200 body with an
error message and no conversation-creation attempt. -/
theorem c4_witness :
    handle_pull_request_event cfgEmptyW oracleFailDetailsW payloadOpenedW =
      { body := { message := "Error processing PR review: " ++ "nope",
                  pr_number := some (payloadOpenedW.pull_request.getD {}).number,
                  repo := some (payloadOpenedW.repository.getD {}).full_name },
        invoked := true,
        trace := some { result := .error "nope" } }
    ∧ github_webhook cfgEmptyW parseOpenedW oracleFailDetailsW "pull_request" none [] =
      { status := 200,
        body := some { message := "Error processing PR review: " ++ "nope",
                       pr_number := some (payloadOpenedW.pull_request.getD {}).number,
                       repo := some (payloadOpenedW.repository.getD {}).full_name },
        invoked := true,
        trace := some { result := .error "nope" } } :=
  c4_fetch_failure cfgEmptyW oracleFailDetailsW payloadOpenedW "nope" parseOpenedW
    none [] (Or.inl rfl) (by decide) (Or.inl rfl) rfl rfl

/-- Claim C5: once the signature gate passes and the body parses, any event
type other than `pull_request` is answered 200 without invoking the
orchestrator; `ping` is answered with exactly the message
`Webhook received successfully`; and a `pull_request` event with an action
outside `opened`/`synchronize` is answered 200 without invoking the
orchestrator. -/
theorem c5_event_routing (cfg : Config) (parse : List Nat → Option Payload)
    (o : Oracle) (event : String) (sig : Option String)
    (payload_bytes : List Nat) (payload : Payload)
    (hsig : sigOk cfg sig payload_bytes = true)
    (hparse : parse payload_bytes = some payload) :
    (event ≠ "pull_request" →
      (github_webhook cfg parse o event sig payload_bytes).status = 200
      ∧ (github_webhook cfg parse o event sig payload_bytes).invoked = false
      ∧ (github_webhook cfg parse o event sig payload_bytes).trace = none)
    ∧ (event = "ping" →
      github_webhook cfg parse o event sig payload_bytes =
        { status := 200, body := some { message := "Webhook received successfully" } })
    ∧ (event = "pull_request" →
        ¬ (payload.action = some "opened" ∨ payload.action = some "synchronize") →
      github_webhook cfg parse o event sig payload_bytes =
        { status := 200,
          body := some { message := "PR action " ++ pyOpt payload.action ++
            " not handled" } }) := by
  have hroute : github_webhook cfg parse o event sig payload_bytes =
      github_webhook_routed cfg parse o event payload_bytes := by
    rw [github_webhook_gate, hsig]
    simp
  refine ⟨?_, ?_, ?_⟩
  · intro hne
    rw [hroute]
    unfold github_webhook_routed
    rw [hparse]
    by_cases hping : event = "ping" <;> simp [hne, hping]
  · intro hping
    subst hping
    rw [hroute]
    unfold github_webhook_routed
    rw [hparse]
    simp
  · intro hpr hna
    subst hpr
    rw [hroute]
    unfold github_webhook_routed
    rw [hparse]
    simp [handle_pull_request_event, hna]

/-- Witness for C5: a `ping` and a `pull_request`/`closed` delivery. -/
theorem c5_witness :
    ((github_webhook cfgEmptyW parseNoneW oracleOkW "ping" none []).status = 200
      ∧ (github_webhook cfgEmptyW parseNoneW oracleOkW "ping" none []).invoked = false
      ∧ (github_webhook cfgEmptyW parseNoneW oracleOkW "ping" none []).trace = none)
    ∧ github_webhook cfgEmptyW parseNoneW oracleOkW "ping" none [] =
      { status := 200, body := some { message := "Webhook received successfully" } }
    ∧ github_webhook cfgEmptyW parseClosedW oracleOkW "pull_request" none [] =
      { status := 200,
        body := some { message := "PR action " ++ pyOpt payloadClosedW.action ++
          " not handled" } } :=
  ⟨(c5_event_routing cfgEmptyW parseNoneW oracleOkW "ping" none [] {} rfl rfl).1
      (by decide),
   (c5_event_routing cfgEmptyW parseNoneW oracleOkW "ping" none [] {} rfl rfl).2.1 rfl,
   (c5_event_routing cfgEmptyW parseClosedW oracleOkW "pull_request" none []
      payloadClosedW rfl rfl).2.2 rfl (by decide)⟩

/-- Claim C6: for an eligible pull-request action, a non-empty allow-list
that does not contain the payload's repository prevents any orchestrator
invocation and yields the `not configured` message, while an empty
allow-list lets every repository proceed to the orchestrator. -/
theorem c6_allow_list (cfg : Config) (o : Oracle) (payload : Payload)
    (ha : payload.action = some "opened" ∨ payload.action = some "synchronize") :
    (¬ cfg.allowed_repositories.isEmpty →
      memAllowed (payload.repository.getD {}).full_name
        cfg.allowed_repositories = false →
      handle_pull_request_event cfg o payload =
        { body := { message := ("Repository " ++
              pyOpt (payload.repository.getD {}).full_name ++
              " not configured for PR reviews") } })
    ∧ (cfg.allowed_repositories = [] →
      (handle_pull_request_event cfg o payload).invoked = true) := by
  have hc1 : ¬ ¬ (payload.action = some "opened" ∨
      payload.action = some "synchronize") := by
    rcases ha with h | h <;> simp [h]
  constructor
  · intro h1 h2
    simp only [handle_pull_request_event]
    rw [if_neg hc1, if_pos ⟨h1, h2⟩]
  · intro h1
    have hc2 : ¬ (¬ cfg.allowed_repositories.isEmpty ∧
        memAllowed (payload.repository.getD {}).full_name
          cfg.allowed_repositories = false) := by
      simp [h1]
    simp only [handle_pull_request_event]
    rw [if_neg hc1, if_neg hc2]
    rcases hres : (review_pr o (payload.repository.getD {}).full_name
        (payload.pull_request.getD {}).number cfg.auto_fix).result with e | res <;>
      rfl

/-- Witness for C6: the repository `o/r` against the allow-list `[x/y]`,
and the same payload against an empty allow-list. -/
theorem c6_witness :
    handle_pull_request_event cfgAllowOtherW oracleOkW payloadOpenedW =
      { body := { message := ("Repository " ++
            pyOpt (payloadOpenedW.repository.getD {}).full_name ++
            " not configured for PR reviews") } }
    ∧ (handle_pull_request_event cfgEmptyW oracleOkW payloadOpenedW).invoked = true :=
  ⟨(c6_allow_list cfgAllowOtherW oracleOkW payloadOpenedW (Or.inl rfl)).1
      (by decide) (by decide),
   (c6_allow_list cfgEmptyW oracleOkW payloadOpenedW (Or.inl rfl)).2 rfl⟩

/-- Claim C10: `handle_pull_request_event` is total on arbitrary payloads:
a payload with no `action` key yields the 200 `PR action None not handled`
body without invoking the orchestrator, and missing `pull_request` or
`repository` objects behave exactly as empty objects. -/
theorem c10_payload_defaults (cfg : Config) (o : Oracle) (payload : Payload) :
    (payload.action = none →
      handle_pull_request_event cfg o payload =
        { body := { message := "PR action None not handled" } })
    ∧ handle_pull_request_event cfg o payload =
      handle_pull_request_event cfg o
        { action := payload.action,
          pull_request := some (payload.pull_request.getD {}),
          repository := some (payload.repository.getD {}) } := by
  obtain ⟨a, pr, rp⟩ := payload
  constructor
  · intro h
    subst h
    rfl
  · cases pr <;> cases rp <;> rfl

/-- Witness for C10 at the empty payload. -/
theorem c10_witness :
    handle_pull_request_event cfgEmptyW oracleOkW {} =
      { body := { message := "PR action None not handled" } } :=
  (c10_payload_defaults cfgEmptyW oracleOkW {}).1 rfl

end OpenhandsWebhook

